import Mathlib

/-
  Verification development for the FileUpload repository (a FastAPI facade
  relaying AWS Bedrock agent streaming responses as Server-Sent Events).

  The Python sources are shallowly embedded:
    * `SSEstream.bedrock_stream_generator` (src/SSEstream.py) becomes a pure
      function from the remote event sequence, an optional mid-iteration
      exception, an optional stop point and the session registry to the list
      of emitted SSE frames and the final registry.  SSE frames are modelled
      structurally (one constructor per `event:` kind, fields = the JSON
      payload fields) rather than as raw strings.
    * `Datavisual` holds the embeddings from src/datavisual.py:
      `determine_use_case`, `validate_file_size`, the pre-invocation part of
      `visualize_data`, and `process_bedrock_response` (the buffered relay).
    * `Endpoint` holds the embeddings from src/endpoint.py (`stop_stream`,
      the `/health` active-stream count).
  Python dicts (the session registry `active_streams`, the on-disk artifact
  store `temp_files/`) are modelled as association lists with dict update /
  lookup / pop semantics.  Machine text is `String` (Python `len` and Lean
  `String.length` both count code points); bytes are `List Nat`.
-/

set_option maxRecDepth 8192

namespace FileUpload

/-! ## Generic string helpers (embedding Python `str` primitives) -/

/-- Python `str.lower()` restricted to ASCII (all inputs in this code base are
ASCII identifiers, keywords and file names). -/
def lowChars (s : String) : List Char := s.data.map Char.toLower

/-- `leadEq pat l` is true when `pat` is an initial run of `l`
(Python `str.startswith`, used to express substring containment). -/
def leadEq : List Char → List Char → Bool
  | [], _ => true
  | _ :: _, [] => false
  | a :: as, b :: bs => a == b && leadEq as bs

/-- Python `needle in hay` substring containment on char lists. -/
def subIn (needle : List Char) : List Char → Bool
  | [] => leadEq needle []
  | c :: rest => leadEq needle (c :: rest) || subIn needle rest

/-- Python `str.endswith(one_fixed_string)` on char lists. -/
def endsWithL (s suff : List Char) : Bool := leadEq suff.reverse s.reverse

/-- Python `str.endswith(tuple_of_strings)`. -/
def endsWithAny (s : List Char) (suffs : List String) : Bool :=
  suffs.any (fun x => endsWithL s x.data)

/-- Python `str.split('.')` on char lists (always returns a non-empty list). -/
def splitOnDot : List Char → List (List Char)
  | [] => [[]]
  | c :: cs =>
    let r := splitOnDot cs
    if c == '.' then [] :: r
    else
      match r with
      | [] => [[c]]
      | h :: t => (c :: h) :: t

/-- Index of the last occurrence of `c` in `cs` (Python `str.rfind`,
`none` standing for `-1`). -/
def rfindIdx (c : Char) (cs : List Char) : Option Nat :=
  ((cs.enum.filter (fun p => p.2 == c)).getLast?).map (fun p => p.1)

/-- The extension component of `os.path.splitext` (posix rules): the suffix
starting at the last `'.'` that lies after the last `'/'`, provided at least
one non-dot character precedes it within the base name; `""` otherwise. -/
def splitextExt (s : String) : String :=
  let cs := s.data
  let start := match rfindIdx '/' cs with
    | some i => i + 1
    | none => 0
  match rfindIdx '.' cs with
  | none => ""
  | some d =>
    if cs.enum.any (fun p => decide (start ≤ p.1 ∧ p.1 < d) && (p.2 != '.')) then
      String.mk (cs.drop d)
    else ""

/-- Python `str.lower()` returning a `String`. -/
def lowerStr (s : String) : String := String.mk (lowChars s)

/-- Python `str.upper()` restricted to ASCII (the `.replace("CODE_INTERPRETER",
"CODE_INTERPRETER")` that follows it in the source is the identity). -/
def upperStr (s : String) : String := String.mk (s.data.map Char.toUpper)

/-- Rendering of the float `len / (1024 * 1024)` under Python's `:.2f`
format.  For `len < 2^53` the float is the exact rational `len / 2^20`
(division by a power of two), and `:.2f` rounds that exact value to the
nearest hundredth with ties to even, which is what is computed here. -/
def fmt2MB (len : Nat) : String :=
  let num := 100 * len
  let den := 1024 * 1024
  let q := num / den
  let r := num % den
  let c :=
    if den < 2 * r then q + 1
    else if 2 * r < den then q
    else if q % 2 = 0 then q else q + 1
  toString (c / 100) ++ "." ++ (if c % 100 < 10 then "0" else "") ++ toString (c % 100)

/-! ## base64 (embedding `base64.b64encode(...).decode('utf-8')`) -/

def b64Alphabet : List Char :=
  "ABCDEFGHIJKLMNOPQRSTUVWXYZabcdefghijklmnopqrstuvwxyz0123456789+/".data

def b64Char (n : Nat) : Char := b64Alphabet.getD n '='

/-- Standard base64 of a byte sequence, with `=` padding. -/
def b64encode : List Nat → String
  | [] => ""
  | [a] =>
    String.mk [b64Char (a / 4), b64Char (a % 4 * 16), '=', '=']
  | [a, b] =>
    String.mk [b64Char (a / 4), b64Char (a % 4 * 16 + b / 16), b64Char (b % 16 * 4), '=']
  | a :: b :: c :: rest =>
    String.mk [b64Char (a / 4), b64Char (a % 4 * 16 + b / 16),
               b64Char (b % 16 * 4 + c / 64), b64Char (c % 64)] ++ b64encode rest

/-! ## Session registry and artifact store (Python dict semantics) -/

/-- The process-wide `active_streams` dict: session id to liveness flag. -/
abbrev Reg := List (String × Bool)

/-- Dict assignment `d[k] = v`: update in place if present, else append. -/
def setK (k : String) (v : Bool) : Reg → Reg
  | [] => [(k, v)]
  | (k', v') :: rest => if k' = k then (k, v) :: rest else (k', v') :: setK k v rest

/-- Dict lookup `d.get(k)` as an `Option`. -/
def findK (k : String) : Reg → Option Bool
  | [] => none
  | (k', v) :: rest => if k' = k then some v else findK k rest

/-- Dict removal `d.pop(k, None)`. -/
def popK (k : String) (r : Reg) : Reg := r.filter (fun p => p.1 != k)

/-- The artifact store (`temp_files/` directory): file name to bytes. -/
abbrev Store := List (String × List Nat)

/-- `open(path, 'wb').write(bytes)`: overwrite if present, else create. -/
def putS (k : String) (v : List Nat) : Store → Store
  | [] => [(k, v)]
  | (k', v') :: rest => if k' = k then (k, v) :: rest else (k', v') :: putS k v rest

/-- Store lookup by file name. -/
def findS (k : String) : Store → Option (List Nat)
  | [] => none
  | (k', v) :: rest => if k' = k then some v else findS k rest

/-! ## Remote event model (the Bedrock `completion` event sequence)

An event is a dict that may carry a `chunk` (itself carrying optional text
`bytes` — modelled post-UTF-8-decode as a `String` — and an optional `files`
list) and may carry a `trace`.  The source inspects `trace` only through
`str(trace['trace'])` substring tests, so the nested trace payload is
modelled as the `Option` of that rendered string. -/

structure FileInfo where
  name : Option String
  data : Option (List Nat)
  deriving DecidableEq

structure Chunk where
  bytes : Option String
  files : Option (List FileInfo)
  deriving DecidableEq

structure BedrockEvent where
  chunk : Option Chunk
  trace : Option (Option String)
  deriving DecidableEq

/-- An outbound SSE frame, one constructor per `event:` kind; the fields are
the JSON payload fields in source order. -/
inductive Frame where
  | status (message : String) (session_id : String)
  | text (content : String) (session_id : String)
  | chart (filename : String) (dataB64 : String) (mimeType : String)
      (size : Nat) (session_id : String)
  | complete (session_id : String) (total_files : Nat) (total_text_length : Nat)
      (message : String)
  | error (err : String) (session_id : String)
  deriving DecidableEq

namespace Datavisual

/-- `SUPPORTED_DATA_FILES` from src/datavisual.py. -/
def SUPPORTED_DATA_FILES : List (String × String) :=
  [(".csv", "text/csv"),
   (".xlsx", "application/vnd.openxmlformats-officedocument.spreadsheetml.sheet"),
   (".xls", "application/vnd.ms-excel"),
   (".json", "application/json"),
   (".yaml", "application/x-yaml"),
   (".yml", "application/x-yaml")]

/-- `SUPPORTED_DOCUMENT_FILES` from src/datavisual.py. -/
def SUPPORTED_DOCUMENT_FILES : List (String × String) :=
  [(".txt", "text/plain"),
   (".pdf", "application/pdf"),
   (".doc", "application/msword"),
   (".docx", "application/vnd.openxmlformats-officedocument.wordprocessingml.document"),
   (".html", "text/html"),
   (".md", "text/markdown")]

/-- Python `ext in table` for the two extension dicts. -/
def inKeys (k : String) (tbl : List (String × String)) : Bool :=
  tbl.any (fun p => p.1 == k)

def viz_keywords : List String :=
  ["chart", "graph", "plot", "visualize", "analyze", "dashboard",
   "trend", "correlation", "statistics", "metrics", "distribution"]

def text_keywords : List String :=
  ["summarize", "explain", "extract", "find", "search", "read"]

/-- `determine_use_case` from src/datavisual.py (buffered path; returns a
list of use-case labels). -/
def determine_use_case (file_name file_type prompt : String) : List String :=
  let file_ext := if file_name == "" then "" else splitextExt (lowerStr file_name)
  let prompt_lower := lowChars prompt
  let wants_viz := viz_keywords.any (fun k => subIn k.data prompt_lower)
  let wants_text := text_keywords.any (fun k => subIn k.data prompt_lower)
  if inKeys file_ext SUPPORTED_DATA_FILES then
    if wants_text && !wants_viz then ["CHAT"]
    else if wants_viz || !wants_text then ["CODE_INTERPRETER"]
    else ["CHAT", "CODE_INTERPRETER"]
  else if inKeys file_ext SUPPORTED_DOCUMENT_FILES then
    if wants_viz then ["CHAT", "CODE_INTERPRETER"] else ["CHAT"]
  else ["CHAT"]

/-- `validate_file_size` from src/datavisual.py.  In the source the size in
MiB is the float `len(file_data) / (1024 * 1024)`; division by a power of two
is exact in binary floating point for every length below `2^53`, so the
comparison `file_size_mb > 10` is exactly `len > 10 * 1024 * 1024`. -/
def validate_file_size (file_data : List Nat) : Bool × String :=
  if 10 * 1024 * 1024 < file_data.length then
    (false, "File too large: " ++ fmt2MB file_data.length ++ "MB (max 10MB)")
  else
    (true, "File size OK: " ++ fmt2MB file_data.length ++ "MB")

end Datavisual

namespace Buffered

/-- One entry of `generated_files` in `process_bedrock_response`
(src/datavisual.py lines 292–297); `kind` is the source's `'type'` key. -/
structure GenFile where
  name : String
  size : Nat
  kind : String
  deriving DecidableEq

/-- `filename.lower().endswith(('.png', '.jpg', '.jpeg', '.svg'))`. -/
def isImageName (name : String) : Bool :=
  endsWithAny (lowChars name) [".png", ".jpg", ".jpeg", ".svg"]

/-- The `for file_info in chunk['files']` loop of `process_bedrock_response`:
entries without a `data` key are skipped; otherwise the bytes are written to
the artifact store (`temp_files/<name>`, overwriting an existing file of the
same name) and a `GenFile` record is appended.  A missing name is synthesized
from `uuid.uuid4()`; the draws are determinized by the parameter `fresh`,
applied to the number of draws made so far. -/
def saveFiles (fresh : Nat → String) : List FileInfo → Nat → Store →
    Nat × List GenFile × Store
  | [], n, st => (n, [], st)
  | fi :: rest, n, st =>
    match fi.data with
    | none => saveFiles fresh rest n st
    | some bytes =>
      let name := fi.name.getD (fresh n)
      let st1 := putS name bytes st
      let r := saveFiles fresh rest (n + 1) st1
      (r.1, (⟨name, bytes.length,
        if isImageName name then "image" else "file"⟩ : GenFile) :: r.2.1, r.2.2)

/-- Accumulated state of `process_bedrock_response`: number of fresh-name
draws, `completion_text`, `generated_files`, and the artifact store. -/
structure BufState where
  draws : Nat
  text : String
  files : List GenFile
  store : Store
  deriving DecidableEq

/-- One iteration of the event loop of `process_bedrock_response`
(src/datavisual.py lines 268–297): append text bytes to `completion_text`,
persist generated files.  Events without a `chunk` are ignored (the buffered
path has no trace handling). -/
def bufStep (fresh : Nat → String) (bs : BufState) (e : BedrockEvent) : BufState :=
  match e.chunk with
  | none => bs
  | some c =>
    let text1 := match c.bytes with
      | none => bs.text
      | some t => bs.text ++ t
    let sf := saveFiles fresh (c.files.getD []) bs.draws bs.store
    ⟨sf.1, text1, bs.files ++ sf.2.1, sf.2.2⟩

/-- Shallow embedding of `process_bedrock_response` (src/datavisual.py): the
whole remote sequence is drained into one accumulated result, with file
payloads written to the artifact store as they arrive. -/
def process_bedrock_response (fresh : Nat → String) (events : List BedrockEvent)
    (store : Store) : BufState :=
  events.foldl (bufStep fresh) ⟨0, "", [], store⟩

end Buffered

namespace Datavisual

/-- The `byteContent` part of a file descriptor sent to the agent. -/
structure ByteContent where
  data : List Nat
  mediaType : String
  deriving DecidableEq

/-- One entry of `sessionState.files` (src/datavisual.py lines 393–405). -/
structure FileDesc where
  name : String
  sourceType : String
  byteContent : ByteContent
  useCase : String
  deriving DecidableEq

/-- The `streamingConfigurations` block of the agent request. -/
structure StreamingConfig where
  streamFinalResponse : Bool
  applyGuardrailInterval : Nat
  deriving DecidableEq

/-- The agent invocation request built by `visualize_data`.  The enhanced
prompt (`inputText`, built by `create_visualization_prompt`) is omitted:
prompt-template construction is out of scope and no claim mentions it. -/
structure Kwargs where
  sessionId : String
  files : List FileDesc
  streamingConfigurations : StreamingConfig
  deriving DecidableEq

/-- The `files_config` loop of `visualize_data` (src/datavisual.py lines
393–405): one descriptor per use-case label, all referencing the same bytes. -/
def files_config (file_name file_type : String) (file_data : List Nat)
    (use_cases : List String) : List FileDesc :=
  use_cases.map (fun uc => ⟨file_name, "BYTE_CONTENT", ⟨file_data, file_type⟩, uc⟩)

/-- The use-case resolution of `visualize_data` (src/datavisual.py lines
370–375).  `.upper().replace("CODE_INTERPRETER", "CODE_INTERPRETER")` in the
custom branch is `.upper()` followed by an identity replacement. -/
def resolve_use_cases (use_case file_name file_type prompt : String) : List String :=
  if use_case == "auto" then determine_use_case file_name file_type prompt
  else if use_case == "both" then ["CHAT", "CODE_INTERPRETER"]
  else [upperStr use_case]

/-- The pre-invocation pipeline of `visualize_data` (src/datavisual.py lines
356–420), starting from the already-decoded bytes: validate the size (a
failure raises an HTTP 400 with the size message, before any remote call),
resolve the use cases, and build the agent request.  `Except.error` therefore
means the remote agent service is never invoked for the request. -/
def visualize_pre (file_data : List Nat)
    (file_name file_type prompt use_case session_id : String) :
    Except String Kwargs :=
  let v := validate_file_size file_data
  if v.1 = false then Except.error v.2
  else
    Except.ok ⟨session_id,
      files_config file_name file_type file_data
        (resolve_use_cases use_case file_name file_type prompt),
      ⟨true, 20⟩⟩

end Datavisual

namespace SSEstream

/-- `get_file_type` from src/SSEstream.py: lower-case the name, split on
`'.'`, take the last component, look it up in the fixed MIME table. -/
def get_file_type (filename : String) : String :=
  let ext := (splitOnDot (lowChars filename)).getLastD []
  let type_map : List (List Char × String) :=
    [("png".data, "image/png"),
     ("jpg".data, "image/jpeg"),
     ("jpeg".data, "image/jpeg"),
     ("svg".data, "image/svg+xml"),
     ("html".data, "text/html"),
     ("csv".data, "text/csv"),
     ("json".data, "application/json"),
     ("pdf".data, "application/pdf")]
  ((type_map.lookup ext).getD "application/octet-stream")

/-- `determine_use_case` from src/SSEstream.py (streaming path; returns a
single use-case label). -/
def determine_use_case (file_name file_type prompt : String) : String :=
  if (["chart", "graph", "visualize", "analyze"] : List String).any
      (fun k => subIn k.data (lowChars prompt)) then
    "CODE_INTERPRETER"
  else if endsWithAny (lowChars file_name) [".csv", ".xlsx", ".xls"] then
    "CODE_INTERPRETER"
  else
    "CHAT"

/-- The running loop state of `bedrock_stream_generator`:
`file_counter` and `text_buffer`. -/
structure LoopState where
  counter : Nat
  buffer : String
  deriving DecidableEq

/-- The inner `for file_info in chunk['files']` loop: skip entries without a
`data` key; otherwise bump the counter, synthesize a name when absent
(`chart_{file_counter}.png`, counter already incremented), and emit one
`chart` frame with the base64 re-encoding, resolved MIME type, byte size and
session id. -/
def processFiles (sid : String) (counter : Nat) : List FileInfo → Nat × List Frame
  | [] => (counter, [])
  | fi :: rest =>
    match fi.data with
    | none => processFiles sid counter rest
    | some bytes =>
      let counter' := counter + 1
      let filename := fi.name.getD ("chart_" ++ toString counter' ++ ".png")
      let fr := Frame.chart filename (b64encode bytes) (get_file_type filename)
        bytes.length sid
      let r := processFiles sid counter' rest
      (r.1, fr :: r.2)

/-- Handling of one event of the loop body of `bedrock_stream_generator`
(lines 60–107 of src/SSEstream.py): text chunk first, then generated files,
then the two substring-matched trace progress messages. -/
def processEvent (sid : String) (st : LoopState) (e : BedrockEvent) :
    LoopState × List Frame :=
  let p1 : LoopState × List Frame :=
    match e.chunk with
    | none => (st, [])
    | some c =>
      let bt : String × List Frame :=
        match c.bytes with
        | none => (st.buffer, [])
        | some t => (st.buffer ++ t, [Frame.text t sid])
      let cf := processFiles sid st.counter (c.files.getD [])
      (⟨cf.1, bt.1⟩, bt.2 ++ cf.2)
  let traceFs : List Frame :=
    match e.trace with
    | none => []
    | some none => []
    | some (some td) =>
      (if subIn "codeInterpreterInvocationInput".data td.data then
        [Frame.status "Generating charts..." sid] else [])
      ++ (if subIn "codeInterpreterInvocationOutput".data td.data then
        [Frame.status "Code execution completed" sid] else [])
  (p1.1, p1.2 ++ traceFs)

/-- The `for event in response.get('completion', [])` loop over the events
that are actually processed. -/
def relayLoop (sid : String) (st : LoopState) :
    List BedrockEvent → LoopState × List Frame
  | [] => (st, [])
  | e :: es =>
    let p := processEvent sid st e
    let r := relayLoop sid p.1 es
    (r.1, p.2 ++ r.2)

/-- The fixed text of the initial `status` frame. -/
def startMsg : String := "Starting analysis..."

/-- The terminal `complete` frame (lines 109–116 of src/SSEstream.py). -/
def completeFrame (sid : String) (st : LoopState) : Frame :=
  Frame.complete sid st.counter st.buffer.length
    ("Analysis complete! Generated " ++ toString st.counter ++ " files.")

/-- The result of one run of `bedrock_stream_generator`: the frames the
generator yields, the final session registry (after the `finally` block),
the artifact store (which the streaming path never touches) and the final
loop state. -/
structure RelayResult where
  frames : List Frame
  finalReg : Reg
  store : Store
  state : LoopState
  deriving DecidableEq

/-- Shallow embedding of `bedrock_stream_generator` (src/SSEstream.py).

* `events` are the events the remote iterator delivers successfully;
  `exn = some e` means the iterator (or the processing of what would follow)
  raises an exception described by `e` after those events; `preExn = some e`
  means `invoke_agent` itself (line 49) raises before any event.
* `stopBefore = some k` records an external stop request whose cleared flag
  is first observed at the liveness check preceding event `k`; the loop
  therefore processes exactly the first `k` events and then `break`s.  If
  `k` is not below the number of delivered events the flag is never observed
  and the run proceeds as if no stop had been requested.
* After a `break` the source falls through to the completion block, so a
  `complete` frame is emitted on the stop path as well; an `error` frame is
  emitted only when an exception fires (stop observed first wins, since the
  `break` leaves the `try` body before the next pull can raise).
* The `finally` block `active_streams.pop(session_id, None)` runs on every
  path, after the registration `active_streams[session_id] = True` and the
  stop-request write `active_streams[session_id] = False` (when one
  occurred). -/
def bedrock_stream_generator (sid file_name file_type prompt : String)
    (events : List BedrockEvent) (exn preExn : Option String)
    (stopBefore : Option Nat) (reg : Reg) (store : Store) : RelayResult :=
  let reg1 := setK sid true reg
  let reg2 := match stopBefore with
    | some _ => setK sid false reg1
    | none => reg1
  match preExn with
  | some e =>
    ⟨[Frame.status startMsg sid, Frame.error e sid], popK sid reg2, store, ⟨0, ""⟩⟩
  | none =>
    let processed := match stopBefore with
      | some k => if k < events.length then events.take k else events
      | none => events
    let lp := relayLoop sid ⟨0, ""⟩ processed
    let terminal : Frame :=
      match stopBefore with
      | some k =>
        if k < events.length then completeFrame sid lp.1
        else
          match exn with
          | some e => Frame.error e sid
          | none => completeFrame sid lp.1
      | none =>
        match exn with
        | some e => Frame.error e sid
        | none => completeFrame sid lp.1
    ⟨Frame.status startMsg sid :: lp.2 ++ [terminal], popK sid reg2, store, lp.1⟩

end SSEstream

namespace Endpoint

/-- `stop_stream` from src/endpoint.py: `active_streams[session_id] = False`
(and a confirmation message that is irrelevant here). -/
def stop_stream (session_id : String) (reg : Reg) : Reg :=
  setK session_id false reg

/-- The `active_streams` count reported by `health_check` in
src/endpoint.py: `len(active_streams)`. -/
def active_stream_count (reg : Reg) : Nat := reg.length

end Endpoint

/-! ## Observers used to state the claims -/

/-- The text delta carried by an event, when it carries one. -/
def deltaOf (e : BedrockEvent) : Option String := e.chunk.bind Chunk.bytes

/-- The text deltas of an event sequence, in receipt order. -/
def textDeltas (es : List BedrockEvent) : List String := es.filterMap deltaOf

/-- Concatenation of a list of strings, in order. -/
def concatAll : List String → String
  | [] => ""
  | s :: rest => s ++ concatAll rest

/-- Number of file payloads (entries of `chunk['files']` carrying a `data`
key) of one event. -/
def payloadCount (e : BedrockEvent) : Nat :=
  match e.chunk with
  | none => 0
  | some c => (c.files.getD []).countP (fun fi => fi.data.isSome)

/-- Total number of file payloads of an event sequence. -/
def payloadSum (es : List BedrockEvent) : Nat := (es.map payloadCount).sum

/-- Whether an event carries at least one file payload. -/
def hasFilePayload (e : BedrockEvent) : Bool := payloadCount e != 0

/-- Recognizer for `text` frames. -/
def isTextFrame : Frame → Bool
  | .text _ _ => true
  | _ => false

namespace SSEstream

theorem processFiles_counter (sid : String) (c : Nat) (fis : List FileInfo) :
    (processFiles sid c fis).1 = c + fis.countP (fun fi => fi.data.isSome) := by
  induction fis generalizing c with
  | nil => simp [processFiles]
  | cons fi rest ih =>
    cases h : fi.data with
    | none => simp [processFiles, h, ih, List.countP_cons]
    | some b =>
      simp only [processFiles, h, ih, List.countP_cons, Option.isSome_some]
      simp
      omega

theorem processFiles_filter_text (sid : String) (c : Nat) (fis : List FileInfo) :
    (processFiles sid c fis).2.filter isTextFrame = [] := by
  induction fis generalizing c with
  | nil => simp [processFiles]
  | cons fi rest ih =>
    cases h : fi.data with
    | none => simp [processFiles, h, ih]
    | some b => simp [processFiles, h, ih, isTextFrame]

theorem processFiles_no_error (sid : String) (c : Nat) (fis : List FileInfo)
    (m s' : String) : Frame.error m s' ∉ (processFiles sid c fis).2 := by
  induction fis generalizing c with
  | nil => simp [processFiles]
  | cons fi rest ih =>
    cases h : fi.data with
    | none => simp [processFiles, h]; exact ih _
    | some b => simp [processFiles, h]; exact ih _

theorem processEvent_buffer (sid : String) (st : LoopState) (e : BedrockEvent) :
    (processEvent sid st e).1.buffer = st.buffer ++ (deltaOf e).getD "" := by
  cases hc : e.chunk with
  | none => simp [processEvent, deltaOf, hc]
  | some c =>
    cases hb : c.bytes with
    | none => simp [processEvent, deltaOf, hc, hb]
    | some t => simp [processEvent, deltaOf, hc, hb]

theorem processEvent_counter (sid : String) (st : LoopState) (e : BedrockEvent) :
    (processEvent sid st e).1.counter = st.counter + payloadCount e := by
  cases hc : e.chunk with
  | none => simp [processEvent, payloadCount, hc]
  | some c =>
    cases hb : c.bytes with
    | none => simp [processEvent, payloadCount, hc, hb, processFiles_counter]
    | some t => simp [processEvent, payloadCount, hc, hb, processFiles_counter]

theorem processEvent_filter_text (sid : String) (st : LoopState) (e : BedrockEvent) :
    (processEvent sid st e).2.filter isTextFrame
      = (deltaOf e).toList.map (fun t => Frame.text t sid) := by
  cases hc : e.chunk with
  | none =>
    cases ht : e.trace with
    | none => simp [processEvent, deltaOf, hc, ht]
    | some tr =>
      cases tr <;>
        simp [processEvent, deltaOf, hc, ht, isTextFrame, List.filter_append,
          apply_ite (List.filter isTextFrame)]
  | some c =>
    cases hb : c.bytes with
    | none =>
      cases ht : e.trace with
      | none =>
        simp [processEvent, deltaOf, hc, hb, ht, List.filter_append,
          processFiles_filter_text]
      | some tr =>
        cases tr <;>
          simp [processEvent, deltaOf, hc, hb, ht, isTextFrame, List.filter_append,
            processFiles_filter_text, apply_ite (List.filter isTextFrame)]
    | some t =>
      cases ht : e.trace with
      | none =>
        simp [processEvent, deltaOf, hc, hb, ht, isTextFrame, List.filter_append,
          processFiles_filter_text]
      | some tr =>
        cases tr <;>
          simp [processEvent, deltaOf, hc, hb, ht, isTextFrame, List.filter_append,
            processFiles_filter_text, apply_ite (List.filter isTextFrame)]

theorem processEvent_no_error (sid : String) (st : LoopState) (e : BedrockEvent)
    (m s' : String) : Frame.error m s' ∉ (processEvent sid st e).2 := by
  cases hc : e.chunk with
  | none =>
    cases ht : e.trace with
    | none => simp [processEvent, hc, ht]
    | some tr =>
      cases tr <;> simp [processEvent, hc, ht]
  | some c =>
    cases hb : c.bytes with
    | none =>
      cases ht : e.trace with
      | none =>
        simp [processEvent, hc, hb, ht,
          processFiles_no_error sid st.counter (c.files.getD []) m s']
      | some tr =>
        cases tr <;>
          simp [processEvent, hc, hb, ht,
            processFiles_no_error sid st.counter (c.files.getD []) m s']
    | some t =>
      cases ht : e.trace with
      | none =>
        simp [processEvent, hc, hb, ht,
          processFiles_no_error sid st.counter (c.files.getD []) m s']
      | some tr =>
        cases tr <;>
          simp [processEvent, hc, hb, ht,
            processFiles_no_error sid st.counter (c.files.getD []) m s']

theorem relayLoop_buffer (sid : String) (st : LoopState) (es : List BedrockEvent) :
    (relayLoop sid st es).1.buffer = st.buffer ++ concatAll (textDeltas es) := by
  induction es generalizing st with
  | nil => simp [relayLoop, textDeltas, concatAll]
  | cons e rest ih =>
    simp only [relayLoop, ih, processEvent_buffer]
    cases hd : deltaOf e with
    | none =>
      simp [textDeltas, List.filterMap_cons, hd]
    | some t =>
      simp [textDeltas, List.filterMap_cons, hd, concatAll, String.append_assoc]

theorem relayLoop_counter (sid : String) (st : LoopState) (es : List BedrockEvent) :
    (relayLoop sid st es).1.counter = st.counter + payloadSum es := by
  induction es generalizing st with
  | nil => simp [relayLoop, payloadSum]
  | cons e rest ih =>
    simp only [relayLoop, ih, processEvent_counter, payloadSum, List.map_cons,
      List.sum_cons]
    omega

theorem relayLoop_filter_text (sid : String) (st : LoopState) (es : List BedrockEvent) :
    (relayLoop sid st es).2.filter isTextFrame
      = (textDeltas es).map (fun t => Frame.text t sid) := by
  induction es generalizing st with
  | nil => simp [relayLoop, textDeltas]
  | cons e rest ih =>
    simp only [relayLoop, List.filter_append, processEvent_filter_text, ih]
    cases hd : deltaOf e with
    | none => simp [textDeltas, List.filterMap_cons, hd]
    | some t => simp [textDeltas, List.filterMap_cons, hd]

theorem relayLoop_no_error (sid : String) (st : LoopState) (es : List BedrockEvent)
    (m s' : String) : Frame.error m s' ∉ (relayLoop sid st es).2 := by
  induction es generalizing st with
  | nil => simp [relayLoop]
  | cons e rest ih =>
    simp only [relayLoop, List.mem_append]
    push_neg
    exact ⟨processEvent_no_error _ _ _ _ _, ih _⟩

theorem relayLoop_append (sid : String) (st : LoopState)
    (es₁ es₂ : List BedrockEvent) :
    relayLoop sid st (es₁ ++ es₂)
      = ((relayLoop sid (relayLoop sid st es₁).1 es₂).1,
         (relayLoop sid st es₁).2 ++ (relayLoop sid (relayLoop sid st es₁).1 es₂).2) := by
  induction es₁ generalizing st with
  | nil => simp [relayLoop]
  | cons e rest ih => simp [relayLoop, ih]

end SSEstream

/-! ## Dict lemmas -/

@[simp] theorem findK_nil (k : String) : findK k ([] : Reg) = none := rfl

@[simp] theorem findK_cons (k a : String) (b : Bool) (rest : Reg) :
    findK k ((a, b) :: rest) = if a = k then some b else findK k rest := rfl

@[simp] theorem setK_nil (k : String) (v : Bool) : setK k v [] = [(k, v)] := rfl

@[simp] theorem setK_cons (k : String) (v : Bool) (a : String) (b : Bool) (rest : Reg) :
    setK k v ((a, b) :: rest)
      = if a = k then (k, v) :: rest else (a, b) :: setK k v rest := rfl

@[simp] theorem popK_nil (k : String) : popK k [] = [] := rfl

theorem popK_cons (k a : String) (b : Bool) (rest : Reg) :
    popK k ((a, b) :: rest)
      = if a = k then popK k rest else (a, b) :: popK k rest := by
  by_cases h : a = k <;> simp [popK, List.filter_cons, h]

@[simp] theorem findS_nil (k : String) : findS k ([] : Store) = none := rfl

@[simp] theorem findS_cons (k a : String) (b : List Nat) (rest : Store) :
    findS k ((a, b) :: rest) = if a = k then some b else findS k rest := rfl

@[simp] theorem putS_nil (k : String) (v : List Nat) : putS k v [] = [(k, v)] := rfl

@[simp] theorem putS_cons (k : String) (v : List Nat) (a : String) (b : List Nat)
    (rest : Store) :
    putS k v ((a, b) :: rest)
      = if a = k then (k, v) :: rest else (a, b) :: putS k v rest := rfl

theorem findK_popK_self (k : String) (r : Reg) : findK k (popK k r) = none := by
  induction r with
  | nil => rfl
  | cons p rest ih =>
    obtain ⟨a, b⟩ := p
    by_cases ha : a = k <;> simp [popK_cons, ha, ih]

theorem findK_popK_ne (k k' : String) (h : k' ≠ k) (r : Reg) :
    findK k' (popK k r) = findK k' r := by
  induction r with
  | nil => rfl
  | cons p rest ih =>
    obtain ⟨a, b⟩ := p
    by_cases ha : a = k
    · simp [popK_cons, ha, Ne.symm h, ih]
    · by_cases hb : a = k' <;> simp [popK_cons, ha, hb, h, ih]

theorem findK_setK_ne (k k' : String) (h : k' ≠ k) (v : Bool) (r : Reg) :
    findK k' (setK k v r) = findK k' r := by
  induction r with
  | nil => simp [Ne.symm h]
  | cons p rest ih =>
    obtain ⟨a, b⟩ := p
    by_cases ha : a = k
    · simp [ha, Ne.symm h]
    · by_cases hb : a = k' <;> simp [ha, hb, h, ih]

theorem setK_of_findK_none (k : String) (v : Bool) (r : Reg)
    (h : findK k r = none) : setK k v r = r ++ [(k, v)] := by
  induction r with
  | nil => rfl
  | cons p rest ih =>
    obtain ⟨a, b⟩ := p
    by_cases ha : a = k
    · simp [ha] at h
    · simp [ha] at h
      simp [ha, ih h]

theorem findS_putS_self (k : String) (v : List Nat) (st : Store) :
    findS k (putS k v st) = some v := by
  induction st with
  | nil => simp
  | cons p rest ih =>
    obtain ⟨a, b⟩ := p
    by_cases ha : a = k <;> simp [ha, ih]

/-! ## Claim C6 -/

/-- C6: for a tabular-data file whose prompt contains both a visualization
keyword and a text-processing keyword, the spec's example says the classifier
returns both CHAT and CODE_EXECUTION — but the code evaluates
`determine_use_case("sales.xlsx", …, "summarize and visualize")` to
`["CODE_INTERPRETER"]` alone: `wants_viz` makes the `elif wants_viz or not
wants_text` guard fire, so the `["CHAT", "CODE_INTERPRETER"]` branch of
src/datavisual.py line 153 is unreachable dead code. -/
theorem claim6_eval :
    Datavisual.determine_use_case "sales.xlsx"
        "application/vnd.openxmlformats-officedocument.spreadsheetml.sheet"
        "summarize and visualize"
      = ["CODE_INTERPRETER"]
    ∧ (["CODE_INTERPRETER"] : List String) ≠ ["CHAT", "CODE_INTERPRETER"] := by
  constructor
  · rfl
  · decide

/-! ## Claim C7 -/

/-- C7: whenever the decoded byte length exceeds the 10 MiB ceiling, the
pre-invocation pipeline of `visualize_data` fails with the TOO_LARGE message
(actual size in MiB to two decimal places against the maximum) and never
builds the agent request, so the remote agent service is not invoked. -/
theorem claim7_too_large (file_data : List Nat)
    (file_name file_type prompt use_case session_id : String)
    (h : 10 * 1024 * 1024 < file_data.length) :
    Datavisual.visualize_pre file_data file_name file_type prompt use_case session_id
      = Except.error ("File too large: " ++ fmt2MB file_data.length ++ "MB (max 10MB)") := by
  simp [Datavisual.visualize_pre, Datavisual.validate_file_size, h]

/-- Witness for C7 at a concrete 10 MiB + 1 byte input. -/
theorem claim7_witness :
    Datavisual.visualize_pre (List.replicate 10485761 0) "big.csv" "text/csv"
        "plot this" "auto" "sess-1"
      = Except.error ("File too large: "
          ++ fmt2MB (List.replicate 10485761 (0 : Nat)).length ++ "MB (max 10MB)") :=
  claim7_too_large _ _ _ _ _ _ (by rw [List.length_replicate]; norm_num)

/-! ## Claim C8 -/

theorem determine_use_case_nodup (file_name file_type prompt : String) :
    (Datavisual.determine_use_case file_name file_type prompt).Nodup := by
  simp only [Datavisual.determine_use_case]
  split_ifs <;> decide

theorem resolve_use_cases_nodup (use_case file_name file_type prompt : String) :
    (Datavisual.resolve_use_cases use_case file_name file_type prompt).Nodup := by
  simp only [Datavisual.resolve_use_cases]
  split_ifs with h1 h2
  · exact determine_use_case_nodup file_name file_type prompt
  · decide
  · exact List.nodup_singleton _

theorem files_config_map_useCase (file_name file_type : String) (file_data : List Nat)
    (ucs : List String) :
    (Datavisual.files_config file_name file_type file_data ucs).map
      Datavisual.FileDesc.useCase = ucs := by
  induction ucs with
  | nil => rfl
  | cons u rest ih => simpa [Datavisual.files_config, List.map_cons] using ih

/-- C8: when the size check passes, the request built by `visualize_data`
contains exactly one file-descriptor entry per resolved use-case label — all
referencing the same bytes and file name, with pairwise-distinct use-case
tags — and asks for incremental delivery with `applyGuardrailInterval = 20`. -/
theorem claim8_descriptors (file_data : List Nat)
    (file_name file_type prompt use_case session_id : String)
    (h : ¬ 10 * 1024 * 1024 < file_data.length) :
    ∃ kw : Datavisual.Kwargs,
      Datavisual.visualize_pre file_data file_name file_type prompt use_case session_id
          = Except.ok kw
      ∧ kw.files.length
          = (Datavisual.resolve_use_cases use_case file_name file_type prompt).length
      ∧ kw.files.map Datavisual.FileDesc.useCase
          = Datavisual.resolve_use_cases use_case file_name file_type prompt
      ∧ (∀ f ∈ kw.files, f.byteContent.data = file_data ∧ f.name = file_name)
      ∧ (kw.files.map Datavisual.FileDesc.useCase).Nodup
      ∧ kw.streamingConfigurations.applyGuardrailInterval = 20
      ∧ kw.streamingConfigurations.streamFinalResponse = true := by
  refine ⟨⟨session_id,
    Datavisual.files_config file_name file_type file_data
      (Datavisual.resolve_use_cases use_case file_name file_type prompt),
    ⟨true, 20⟩⟩, ?_, ?_, ?_, ?_, ?_, rfl, rfl⟩
  · simp [Datavisual.visualize_pre, Datavisual.validate_file_size, h]
  · simp [Datavisual.files_config]
  · exact files_config_map_useCase file_name file_type file_data _
  · intro f hf
    simp [Datavisual.files_config, List.mem_map] at hf
    obtain ⟨uc, _, rfl⟩ := hf
    exact ⟨rfl, rfl⟩
  · rw [files_config_map_useCase]
    exact resolve_use_cases_nodup use_case file_name file_type prompt

/-- Witness for C8: an explicit `both`-tagged attachment gives two
descriptors. -/
theorem claim8_witness :
    ∃ kw : Datavisual.Kwargs,
      Datavisual.visualize_pre [1, 2, 3] "sales.csv" "text/csv" "plot" "both" "sess-2"
          = Except.ok kw
      ∧ kw.files.length
          = (Datavisual.resolve_use_cases "both" "sales.csv" "text/csv" "plot").length
      ∧ kw.files.map Datavisual.FileDesc.useCase
          = Datavisual.resolve_use_cases "both" "sales.csv" "text/csv" "plot"
      ∧ (∀ f ∈ kw.files, f.byteContent.data = [1, 2, 3] ∧ f.name = "sales.csv")
      ∧ (kw.files.map Datavisual.FileDesc.useCase).Nodup
      ∧ kw.streamingConfigurations.applyGuardrailInterval = 20
      ∧ kw.streamingConfigurations.streamFinalResponse = true :=
  claim8_descriptors [1, 2, 3] "sales.csv" "text/csv" "plot" "both" "sess-2" (by decide)

/-! ## Claim C9 -/

/-- C9 counterexample: the two `determine_use_case` functions are not
equivalent.  On `("data.json", "application/json", "hello")` the streaming
classifier answers CHAT (`.json` is not in its extension tuple) while the
buffered classifier answers `["CODE_INTERPRETER"]` (`.json` is a supported
data extension and no text keyword is present). -/
theorem claim9_counterexample :
    SSEstream.determine_use_case "data.json" "application/json" "hello" = "CHAT"
    ∧ Datavisual.determine_use_case "data.json" "application/json" "hello"
        = ["CODE_INTERPRETER"]
    ∧ (["CHAT"] : List String) ≠ ["CODE_INTERPRETER"] := by
  refine ⟨rfl, rfl, by decide⟩

theorem any4_to_viz (prompt : String)
    (hk : (["chart", "graph", "visualize", "analyze"] : List String).any
        (fun k => subIn k.data (lowChars prompt)) = true) :
    Datavisual.viz_keywords.any (fun k => subIn k.data (lowChars prompt)) = true := by
  simp [Datavisual.viz_keywords]
  simp at hk
  tauto

/-- C9 amended: the two classifiers do agree on the common core — when the
prompt contains one of the four shared visualization keywords and the
(lower-cased, `splitext`-resolved) extension is a supported data extension,
both answer CODE_INTERPRETER. -/
theorem claim9_amended_agreement (file_name file_type prompt : String)
    (hk : (["chart", "graph", "visualize", "analyze"] : List String).any
        (fun k => subIn k.data (lowChars prompt)) = true)
    (he : Datavisual.inKeys
        (if file_name == "" then "" else splitextExt (lowerStr file_name))
        Datavisual.SUPPORTED_DATA_FILES = true) :
    [SSEstream.determine_use_case file_name file_type prompt]
      = Datavisual.determine_use_case file_name file_type prompt := by
  have hviz := any4_to_viz prompt hk
  rw [SSEstream.determine_use_case, if_pos hk]
  rw [Datavisual.determine_use_case]
  simp only [he, if_true, hviz]
  simp

/-- Witness for the C9 amended agreement at a concrete input. -/
theorem claim9_witness :
    [SSEstream.determine_use_case "sales.csv" "text/csv" "make a chart"]
      = Datavisual.determine_use_case "sales.csv" "text/csv" "make a chart" :=
  claim9_amended_agreement "sales.csv" "text/csv" "make a chart"
    (by decide) (by decide)

/-! ## Claim C10 -/

/-- C10 counterexample: a stop request for a session id that was never
registered does NOT leave the registry unchanged — `stop_stream` executes
`active_streams[session_id] = False`, which inserts a fresh entry, and the
health endpoint then counts it. -/
theorem claim10_counterexample :
    Endpoint.stop_stream "ghost" [] = [("ghost", false)]
    ∧ findK "ghost" ([] : Reg) = none
    ∧ Endpoint.active_stream_count (Endpoint.stop_stream "ghost" []) = 1
    ∧ Endpoint.active_stream_count ([] : Reg) = 0 := by
  refine ⟨rfl, rfl, rfl, rfl⟩

/-- C10 amended: a stop request for an id with no registry entry appends a
`(id, false)` entry, growing the health endpoint's active-stream count by
one — so the count can include sessions with no running relay. -/
theorem claim10_amended (session_id : String) (reg : Reg)
    (h : findK session_id reg = none) :
    Endpoint.stop_stream session_id reg = reg ++ [(session_id, false)]
    ∧ Endpoint.active_stream_count (Endpoint.stop_stream session_id reg)
        = Endpoint.active_stream_count reg + 1 := by
  have h1 := setK_of_findK_none session_id false reg h
  exact ⟨h1, by simp [Endpoint.active_stream_count, Endpoint.stop_stream, h1]⟩

/-- Witness for the C10 amended statement. -/
theorem claim10_witness :
    Endpoint.stop_stream "gone" [("live", true)] = [("live", true), ("gone", false)]
    ∧ Endpoint.active_stream_count (Endpoint.stop_stream "gone" [("live", true)])
        = Endpoint.active_stream_count [("live", true)] + 1 :=
  claim10_amended "gone" [("live", true)] (by decide)

/-! ## Concrete event vectors and auxiliary lemmas for the relay claims -/

/-- A remote event carrying one text delta. -/
def textEvent (t : String) : BedrockEvent := ⟨some ⟨some t, none⟩, none⟩

/-- A remote event carrying one file payload. -/
def fileEvent (n : Option String) (bs : List Nat) : BedrockEvent :=
  ⟨some ⟨none, some [⟨n, some bs⟩]⟩, none⟩

theorem empty_append_str (s : String) : "" ++ s = s := by
  rcases s with ⟨d⟩
  rfl

theorem getLast_cons_concat {a b : Frame} {l : List Frame} :
    (a :: (l ++ [b])).getLast? = some b := by
  rw [← List.cons_append, List.getLast?_concat]

theorem payloadSum_eq_countP (es : List BedrockEvent)
    (h : ∀ e ∈ es, payloadCount e ≤ 1) :
    payloadSum es = es.countP hasFilePayload := by
  induction es with
  | nil => rfl
  | cons e rest ih =>
    have he := h e (List.mem_cons_self e rest)
    have hr := ih (fun x hx => h x (List.mem_cons_of_mem _ hx))
    simp only [payloadSum, List.map_cons, List.sum_cons, List.countP_cons]
    rcases Nat.le_one_iff_eq_zero_or_eq_one.mp he with h0 | h1
    · simp only [payloadSum] at hr
      simp [hasFilePayload, h0, hr]
    · simp only [payloadSum] at hr
      simp [hasFilePayload, h1, hr]
      omega

theorem saveFiles_draws (fresh : Nat → String) (fis : List FileInfo) (n : Nat)
    (st : Store) :
    (Buffered.saveFiles fresh fis n st).1
      = n + fis.countP (fun fi => fi.data.isSome) := by
  induction fis generalizing n st with
  | nil => simp [Buffered.saveFiles]
  | cons fi rest ih =>
    cases h : fi.data with
    | none => simp [Buffered.saveFiles, h, ih, List.countP_cons]
    | some b =>
      simp only [Buffered.saveFiles, h, ih, List.countP_cons, Option.isSome_some]
      simp
      omega

theorem bufStep_draws (fresh : Nat → String) (bs : Buffered.BufState)
    (e : BedrockEvent) :
    (Buffered.bufStep fresh bs e).draws = bs.draws + payloadCount e := by
  cases hc : e.chunk with
  | none => simp [Buffered.bufStep, payloadCount, hc]
  | some c =>
    cases hb : c.bytes with
    | none => simp [Buffered.bufStep, payloadCount, hc, hb, saveFiles_draws]
    | some t => simp [Buffered.bufStep, payloadCount, hc, hb, saveFiles_draws]

theorem bufLoop_draws (fresh : Nat → String) (es : List BedrockEvent)
    (bs : Buffered.BufState) :
    (es.foldl (Buffered.bufStep fresh) bs).draws = bs.draws + payloadSum es := by
  induction es generalizing bs with
  | nil => simp [payloadSum]
  | cons e rest ih =>
    simp only [List.foldl_cons, ih, bufStep_draws, payloadSum, List.map_cons,
      List.sum_cons]
    omega

theorem processEvent_fileEvent (sid : String) (st : SSEstream.LoopState)
    (nameOpt : Option String) (bytes : List Nat) :
    SSEstream.processEvent sid st (fileEvent nameOpt bytes)
      = (⟨st.counter + 1, st.buffer⟩,
         [Frame.chart (nameOpt.getD ("chart_" ++ toString (st.counter + 1) ++ ".png"))
            (b64encode bytes)
            (SSEstream.get_file_type
              (nameOpt.getD ("chart_" ++ toString (st.counter + 1) ++ ".png")))
            bytes.length sid]) := by
  simp [SSEstream.processEvent, SSEstream.processFiles, fileEvent]

/-! ## Claim C1 -/

/-- C1 counterexample: with the liveness flag cleared before the second
event, the relay emits the start `status` and one `text` frame — but then a
`complete` frame as well: after `break` the source falls through to the
completion block (src/SSEstream.py lines 109–116), so the termination is not
silent as the claim states.  The registry entry is removed. -/
theorem claim1_counterexample :
    (SSEstream.bedrock_stream_generator "s1" "f.csv" "text/csv" "p"
        [textEvent "Hello ", textEvent "world"] none none (some 1) [] []).frames
      = [Frame.status SSEstream.startMsg "s1", Frame.text "Hello " "s1",
         Frame.complete "s1" 0 6 "Analysis complete! Generated 0 files."]
    ∧ Frame.complete "s1" 0 6 "Analysis complete! Generated 0 files."
        ∈ (SSEstream.bedrock_stream_generator "s1" "f.csv" "text/csv" "p"
            [textEvent "Hello ", textEvent "world"] none none (some 1) [] []).frames
    ∧ findK "s1" (SSEstream.bedrock_stream_generator "s1" "f.csv" "text/csv" "p"
        [textEvent "Hello ", textEvent "world"] none none (some 1) [] []).finalReg
      = none := by
  refine ⟨by decide, by decide, by decide⟩

/-- C1 amended: when the cleared flag is observed before event `k`, the relay
stops processing events there and emits exactly one further frame — a
`complete` frame reflecting the state at the stop — emits no `error` frame
on this path, and the session's registry entry is removed. -/
theorem claim1_amended (sid file_name file_type prompt : String)
    (events : List BedrockEvent) (exn : Option String) (k : Nat)
    (reg : Reg) (store : Store) (h : k < events.length) :
    (SSEstream.bedrock_stream_generator sid file_name file_type prompt
        events exn none (some k) reg store).frames
      = Frame.status SSEstream.startMsg sid
        :: (SSEstream.relayLoop sid ⟨0, ""⟩ (events.take k)).2
        ++ [SSEstream.completeFrame sid
            (SSEstream.relayLoop sid ⟨0, ""⟩ (events.take k)).1]
    ∧ (∀ m s', Frame.error m s'
        ∉ (SSEstream.bedrock_stream_generator sid file_name file_type prompt
            events exn none (some k) reg store).frames)
    ∧ findK sid (SSEstream.bedrock_stream_generator sid file_name file_type prompt
        events exn none (some k) reg store).finalReg = none := by
  refine ⟨?_, ?_, ?_⟩
  · simp [SSEstream.bedrock_stream_generator, h]
  · intro m s'
    have h1 := SSEstream.relayLoop_no_error sid ⟨0, ""⟩ (events.take k) m s'
    simp only [SSEstream.bedrock_stream_generator, h, if_true]
    simp [SSEstream.completeFrame, h1]
  · simp only [SSEstream.bedrock_stream_generator]
    exact findK_popK_self sid _

/-- Witness for the C1 amended statement at a concrete stopped run. -/
theorem claim1_witness :
    (SSEstream.bedrock_stream_generator "s1w" "f.csv" "text/csv" "p"
        [textEvent "Hola ", textEvent "mundo"] none none (some 1) [] []).frames
      = Frame.status SSEstream.startMsg "s1w"
        :: (SSEstream.relayLoop "s1w" ⟨0, ""⟩
            ([textEvent "Hola ", textEvent "mundo"].take 1)).2
        ++ [SSEstream.completeFrame "s1w"
            (SSEstream.relayLoop "s1w" ⟨0, ""⟩
              ([textEvent "Hola ", textEvent "mundo"].take 1)).1]
    ∧ findK "s1w" (SSEstream.bedrock_stream_generator "s1w" "f.csv" "text/csv" "p"
        [textEvent "Hola ", textEvent "mundo"] none none (some 1) [] []).finalReg
      = none :=
  ⟨(claim1_amended "s1w" "f.csv" "text/csv" "p"
      [textEvent "Hola ", textEvent "mundo"] none 1 [] [] (by decide)).1,
   (claim1_amended "s1w" "f.csv" "text/csv" "p"
      [textEvent "Hola ", textEvent "mundo"] none 1 [] [] (by decide)).2.2⟩

/-! ## Claim C2 -/

/-- C2 counterexample: during a streaming session a file-payload event does
produce the `chart` frame, but nothing is persisted to the artifact store —
`bedrock_stream_generator` never writes a file, so the store is unchanged
(empty here) and the payload is not retrievable under its filename. -/
theorem claim2_counterexample :
    Frame.chart "c.png" "AQID" "image/png" 3 "s2"
        ∈ (SSEstream.bedrock_stream_generator "s2" "f.csv" "text/csv" "p"
            [fileEvent (some "c.png") [1, 2, 3]] none none none [] []).frames
    ∧ (SSEstream.bedrock_stream_generator "s2" "f.csv" "text/csv" "p"
        [fileEvent (some "c.png") [1, 2, 3]] none none none [] []).store = []
    ∧ findS "c.png" (SSEstream.bedrock_stream_generator "s2" "f.csv" "text/csv" "p"
        [fileEvent (some "c.png") [1, 2, 3]] none none none [] []).store = none := by
  refine ⟨by decide, rfl, rfl⟩

/-- C2 amended: every file-payload event of a streaming session — at any
position in the sequence, whether its name is given or synthesized as
`chart_{counter}.png` (the counter = number of payloads delivered before it,
plus one) — produces one `chart` frame carrying the base64 re-encoding, that
filename, the extension-resolved MIME type, the byte length and the session
id; but the streaming relay persists nothing — the artifact store is
returned unchanged.  The bytes are persisted only by the buffered
`process_bedrock_response` variant: at the moment it consumes the event it
writes them under the given or uuid-synthesized (`fresh`-determinized) name,
so the store after that prefix maps the name to the bytes (a later
same-name write may overwrite — last writer wins). -/
theorem claim2_amended (sid file_name file_type prompt : String)
    (nameOpt : Option String) (bytes : List Nat)
    (pre post : List BedrockEvent) (reg : Reg) (store : Store)
    (fresh : Nat → String) :
    Frame.chart (nameOpt.getD ("chart_" ++ toString (payloadSum pre + 1) ++ ".png"))
        (b64encode bytes)
        (SSEstream.get_file_type
          (nameOpt.getD ("chart_" ++ toString (payloadSum pre + 1) ++ ".png")))
        bytes.length sid
      ∈ (SSEstream.bedrock_stream_generator sid file_name file_type prompt
          (pre ++ fileEvent nameOpt bytes :: post) none none none reg store).frames
    ∧ (SSEstream.bedrock_stream_generator sid file_name file_type prompt
          (pre ++ fileEvent nameOpt bytes :: post) none none none reg store).store
        = store
    ∧ findS (nameOpt.getD (fresh (payloadSum pre)))
        (Buffered.process_bedrock_response fresh
          (pre ++ [fileEvent nameOpt bytes]) store).store
      = some bytes := by
  refine ⟨?_, rfl, ?_⟩
  · have hcnt : (SSEstream.relayLoop sid ⟨0, ""⟩ pre).1.counter = payloadSum pre := by
      simpa using SSEstream.relayLoop_counter sid ⟨0, ""⟩ pre
    simp only [SSEstream.bedrock_stream_generator, SSEstream.relayLoop_append,
      SSEstream.relayLoop, processEvent_fileEvent, hcnt]
    simp
  · have hd : (pre.foldl (Buffered.bufStep fresh)
        (⟨0, "", [], store⟩ : Buffered.BufState)).draws = payloadSum pre := by
      simpa using bufLoop_draws fresh pre ⟨0, "", [], store⟩
    simp only [Buffered.process_bedrock_response, List.foldl_append,
      List.foldl_cons, List.foldl_nil]
    simp [Buffered.bufStep, Buffered.saveFiles, fileEvent, hd, findS_putS_self]

/-! ## Claim C3 -/

/-- C3: on every termination path of the streaming relay — normal
exhaustion, observed stop request, a pre-loop invocation failure, or a
mid-iteration exception — the `finally` block removes the session's registry
entry, and entries of other sessions are untouched.  (The outbound transport
failing only truncates the frames a client sees; the registry result of the
run is unchanged, as `finalReg` here does not depend on frame delivery.) -/
theorem claim3_cleanup (sid file_name file_type prompt : String)
    (events : List BedrockEvent) (exn preExn : Option String)
    (stopBefore : Option Nat) (reg : Reg) (store : Store) :
    findK sid (SSEstream.bedrock_stream_generator sid file_name file_type prompt
        events exn preExn stopBefore reg store).finalReg = none
    ∧ ∀ k, k ≠ sid →
        findK k (SSEstream.bedrock_stream_generator sid file_name file_type prompt
          events exn preExn stopBefore reg store).finalReg = findK k reg := by
  have hreg : (SSEstream.bedrock_stream_generator sid file_name file_type prompt
      events exn preExn stopBefore reg store).finalReg
      = popK sid (match stopBefore with
        | some _ => setK sid false (setK sid true reg)
        | none => setK sid true reg) := by
    cases preExn <;> rfl
  constructor
  · rw [hreg]
    cases stopBefore <;> exact findK_popK_self sid _
  · intro k hk
    rw [hreg]
    cases stopBefore <;>
      simp [findK_popK_ne sid k hk, findK_setK_ne sid k hk]

/-- Witness for C3 at a concrete run with a second registered session. -/
theorem claim3_witness :
    findK "s3" (SSEstream.bedrock_stream_generator "s3" "a.csv" "text/csv" "p"
        [] none none none [("other", true)] []).finalReg = none
    ∧ findK "other" (SSEstream.bedrock_stream_generator "s3" "a.csv" "text/csv" "p"
        [] none none none [("other", true)] []).finalReg
      = findK "other" [("other", true)] :=
  ⟨(claim3_cleanup "s3" "a.csv" "text/csv" "p" [] none none none
      [("other", true)] []).1,
   (claim3_cleanup "s3" "a.csv" "text/csv" "p" [] none none none
      [("other", true)] []).2 "other" (by decide)⟩

/-! ## Claim C4 -/

/-- C4: when the streaming body raises after delivering some events, the
relay still emits a terminal `error` frame carrying the exception
description and the session id; it is the last frame, and every frame
produced before the exception (the start `status`, the per-event frames) is
delivered before it in order. -/
theorem claim4_error_frame (sid file_name file_type prompt emsg : String)
    (events : List BedrockEvent) (reg : Reg) (store : Store) :
    (SSEstream.bedrock_stream_generator sid file_name file_type prompt
        events (some emsg) none none reg store).frames
      = Frame.status SSEstream.startMsg sid
        :: (SSEstream.relayLoop sid ⟨0, ""⟩ events).2 ++ [Frame.error emsg sid]
    ∧ (SSEstream.bedrock_stream_generator sid file_name file_type prompt
        events (some emsg) none none reg store).frames.getLast?
      = some (Frame.error emsg sid) := by
  refine ⟨rfl, ?_⟩
  exact getLast_cons_concat

/-! ## Claim C5 -/

/-- C5: on normal exhaustion the relay emits one `text` frame per text
delta, carrying exactly that delta and in receipt order; after any prefix of
the event sequence the accumulator equals the concatenation of the deltas of
that prefix; and the terminal `complete` frame carries the session id, the
number of file-payload events (each event carrying at most one payload, as
in the spec's event model) and the length of the full concatenation. -/
theorem claim5_text_relay (sid file_name file_type prompt : String)
    (events : List BedrockEvent) (reg : Reg) (store : Store)
    (hone : ∀ e ∈ events, payloadCount e ≤ 1) :
    (SSEstream.bedrock_stream_generator sid file_name file_type prompt
        events none none none reg store).frames.filter isTextFrame
      = (textDeltas events).map (fun t => Frame.text t sid)
    ∧ (∀ i : Nat, (SSEstream.relayLoop sid ⟨0, ""⟩ (events.take i)).1.buffer
        = concatAll (textDeltas (events.take i)))
    ∧ (SSEstream.bedrock_stream_generator sid file_name file_type prompt
        events none none none reg store).frames.getLast?
      = some (Frame.complete sid (events.countP hasFilePayload)
          (concatAll (textDeltas events)).length
          ("Analysis complete! Generated "
            ++ toString (events.countP hasFilePayload) ++ " files.")) := by
  refine ⟨?_, ?_, ?_⟩
  · simp only [SSEstream.bedrock_stream_generator]
    simp [List.filter_cons, List.filter_append, isTextFrame,
      SSEstream.relayLoop_filter_text, SSEstream.completeFrame]
  · intro i
    rw [SSEstream.relayLoop_buffer]
    exact empty_append_str _
  · have hcnt : (SSEstream.relayLoop sid ⟨0, ""⟩ events).1.counter
        = events.countP hasFilePayload := by
      rw [SSEstream.relayLoop_counter]
      simpa using payloadSum_eq_countP events hone
    have hbuf : (SSEstream.relayLoop sid ⟨0, ""⟩ events).1.buffer
        = concatAll (textDeltas events) := by
      rw [SSEstream.relayLoop_buffer]
      exact empty_append_str _
    have hl : (SSEstream.bedrock_stream_generator sid file_name file_type prompt
        events none none none reg store).frames.getLast?
        = some (SSEstream.completeFrame sid
            (SSEstream.relayLoop sid ⟨0, ""⟩ events).1) := getLast_cons_concat
    rw [hl, SSEstream.completeFrame, hcnt, hbuf]

/-- Witness for C5 at the spec's sample sequence
`[text "Hello ", text "world", file "chart1.png"]`. -/
theorem claim5_witness :
    (SSEstream.bedrock_stream_generator "s5" "data.csv" "text/csv" "plot"
        [textEvent "Hello ", textEvent "world", fileEvent (some "chart1.png") [137, 80]]
        none none none [] []).frames.getLast?
      = some (Frame.complete "s5"
          (List.countP hasFilePayload
            [textEvent "Hello ", textEvent "world",
             fileEvent (some "chart1.png") [137, 80]])
          (concatAll (textDeltas
            [textEvent "Hello ", textEvent "world",
             fileEvent (some "chart1.png") [137, 80]])).length
          ("Analysis complete! Generated "
            ++ toString (List.countP hasFilePayload
              [textEvent "Hello ", textEvent "world",
               fileEvent (some "chart1.png") [137, 80]]) ++ " files."))
    ∧ List.countP hasFilePayload
        [textEvent "Hello ", textEvent "world",
         fileEvent (some "chart1.png") [137, 80]] = 1
    ∧ (concatAll (textDeltas
        [textEvent "Hello ", textEvent "world",
         fileEvent (some "chart1.png") [137, 80]])).length = 11 :=
  ⟨(claim5_text_relay "s5" "data.csv" "text/csv" "plot"
      [textEvent "Hello ", textEvent "world", fileEvent (some "chart1.png") [137, 80]]
      [] [] (by decide)).2.2,
   by decide, by decide⟩

end FileUpload
